import Mathlib

/-!
# Verification of the AgentScope GenAI → OpenInference tracing translation layer

Shallow embedding of `src/agentscope/tracing/_processor.py` and
`src/agentscope/tracing/_setup.py`:

* `Value` models a Python attribute value (int, str, bool, or a sequence),
  with `truthy` modelling Python truthiness and `Value.add` modelling the
  Python `+` operator (`none` models a raised `TypeError`).
* `AttrMap` models a Python dict of span attributes as an association list;
  `aget` models `dict.get` (first binding wins, matching unique-key dicts).
* `convertGenAI` embeds `_convert_genai_to_openinference`.
* `Span` with its accessors embeds `ReadableSpan` / `_ConvertedSpan`.
* `convertSpan` / `convertBatch` / `exportTranslating` embed
  `GenAIToOpenInferenceExporter._convert_span` / `.export`.
* `genAIToOpenInferenceProcessor` and `setup_phoenix_tracing` embed the
  processor construction and the Phoenix setup entry point.
-/

namespace AgentScopeTracing

/-- A Python attribute value as used on OTel spans: an int, a string, a bool,
or a homogeneous sequence (modelled as a list of strings). -/
inductive Value where
  | vInt (n : Int)
  | vStr (s : String)
  | vBool (b : Bool)
  | vStrList (elems : List String)
deriving DecidableEq

/-- Python truthiness of a `Value` (`bool(v)`): zero, the empty string and the
empty sequence are falsy. -/
def truthy : Value → Bool
  | .vInt n => !(n == 0)
  | .vStr s => !(s == "")
  | .vBool b => b
  | .vStrList l => !l.isEmpty

/-- The Python `+` operator on attribute values; `none` models a raised
`TypeError` (e.g. `str + int`).  Python `bool` is an `int` subclass, so
bool operands participate in integer addition. -/
def Value.add : Value → Value → Option Value
  | .vInt a, .vInt b => some (.vInt (a + b))
  | .vInt a, .vBool b => some (.vInt (a + (if b then 1 else 0)))
  | .vBool a, .vInt b => some (.vInt ((if a then 1 else 0) + b))
  | .vBool a, .vBool b => some (.vInt ((if a then 1 else 0) + (if b then 1 else 0)))
  | .vStr a, .vStr b => some (.vStr (a ++ b))
  | .vStrList a, .vStrList b => some (.vStrList (a ++ b))
  | _, _ => none

/-- A span attribute mapping (`dict[str, Any]`), as an association list with
the first binding for a key authoritative. -/
abbrev AttrMap := List (String × Value)

/-- `attrs.get(key)`: first binding for `key`, or `none` (Python `None`). -/
def aget : AttrMap → String → Option Value
  | [], _ => none
  | (k, v) :: rest, key => if key = k then some v else aget rest key

/-- The walrus-guarded lookup `if x := attrs.get(key)`: the value only when it
is present *and* truthy. -/
def getTruthy (attrs : AttrMap) (key : String) : Option Value :=
  match aget attrs key with
  | some v => if truthy v then some v else none
  | none => none

-- GenAI attribute keys (`_processor.py` module constants)
@[simp] abbrev GENAI_OPERATION_NAME : String := "gen_ai.operation.name"
@[simp] abbrev GENAI_USAGE_INPUT_TOKENS : String := "gen_ai.usage.input_tokens"
@[simp] abbrev GENAI_USAGE_OUTPUT_TOKENS : String := "gen_ai.usage.output_tokens"
@[simp] abbrev GENAI_REQUEST_MODEL : String := "gen_ai.request.model"
@[simp] abbrev GENAI_PROVIDER_NAME : String := "gen_ai.system"
@[simp] abbrev GENAI_AGENT_NAME : String := "gen_ai.agent.name"
@[simp] abbrev GENAI_TOOL_NAME : String := "gen_ai.tool.name"
@[simp] abbrev GENAI_CONVERSATION_ID : String := "gen_ai.conversation.id"

-- AgentScope attribute keys
@[simp] abbrev AGENTSCOPE_FUNCTION_INPUT : String := "agentscope.function.input"
@[simp] abbrev AGENTSCOPE_FUNCTION_OUTPUT : String := "agentscope.function.output"

-- OpenInference attribute keys
@[simp] abbrev OI_SPAN_KIND : String := "openinference.span.kind"
@[simp] abbrev OI_INPUT_VALUE : String := "input.value"
@[simp] abbrev OI_INPUT_MIME_TYPE : String := "input.mime_type"
@[simp] abbrev OI_OUTPUT_VALUE : String := "output.value"
@[simp] abbrev OI_OUTPUT_MIME_TYPE : String := "output.mime_type"
@[simp] abbrev OI_LLM_TOKEN_PROMPT : String := "llm.token_count.prompt"
@[simp] abbrev OI_LLM_TOKEN_COMPLETION : String := "llm.token_count.completion"
@[simp] abbrev OI_LLM_TOKEN_TOTAL : String := "llm.token_count.total"
@[simp] abbrev OI_METADATA_MODEL : String := "metadata.model"
@[simp] abbrev OI_METADATA_PROVIDER : String := "metadata.provider"
@[simp] abbrev OI_METADATA_AGENT_NAME : String := "metadata.agent_name"
@[simp] abbrev OI_METADATA_TOOL_NAME : String := "metadata.tool_name"
@[simp] abbrev OI_METADATA_CONVERSATION_ID : String := "metadata.conversation_id"

/-- The static `_OPERATION_TO_SPAN_KIND` lookup table. -/
def OPERATION_TO_SPAN_KIND : List (String × String) :=
  [("chat", "LLM"),
   ("invoke_agent", "AGENT"),
   ("execute_tool", "TOOL"),
   ("embeddings", "EMBEDDING"),
   ("format", "CHAIN"),
   ("invoke_generic_function", "CHAIN")]

/-- First-binding lookup in a string-to-string table (`dict.get`). -/
def lookupStr : List (String × String) → String → Option String
  | [], _ => none
  | (k, v) :: rest, key => if key = k then some v else lookupStr rest key

/-- `_OPERATION_TO_SPAN_KIND.get(op_name, "CHAIN")`: a non-string value never
equals a string key, so it also falls back to `"CHAIN"`. -/
def operationToSpanKind : Value → String
  | .vStr s => (lookupStr OPERATION_TO_SPAN_KIND s).getD "CHAIN"
  | _ => "CHAIN"

/-- Rules 3 and 4 of `_convert_genai_to_openinference` (input/output payload
passthrough and metadata flattening), appended after the token rules. -/
def convertRest (attrs : AttrMap) (extra : AttrMap) : AttrMap :=
  let extra := extra ++ (match getTruthy attrs AGENTSCOPE_FUNCTION_INPUT with
    | some v => [(OI_INPUT_VALUE, v), (OI_INPUT_MIME_TYPE, Value.vStr "application/json")]
    | none => [])
  let extra := extra ++ (match getTruthy attrs AGENTSCOPE_FUNCTION_OUTPUT with
    | some v => [(OI_OUTPUT_VALUE, v), (OI_OUTPUT_MIME_TYPE, Value.vStr "application/json")]
    | none => [])
  let extra := extra ++ (match getTruthy attrs GENAI_REQUEST_MODEL with
    | some v => [(OI_METADATA_MODEL, v)]
    | none => [])
  let extra := extra ++ (match getTruthy attrs GENAI_PROVIDER_NAME with
    | some v => [(OI_METADATA_PROVIDER, v)]
    | none => [])
  let extra := extra ++ (match getTruthy attrs GENAI_AGENT_NAME with
    | some v => [(OI_METADATA_AGENT_NAME, v)]
    | none => [])
  let extra := extra ++ (match getTruthy attrs GENAI_TOOL_NAME with
    | some v => [(OI_METADATA_TOOL_NAME, v)]
    | none => [])
  let extra := extra ++ (match getTruthy attrs GENAI_CONVERSATION_ID with
    | some v => [(OI_METADATA_CONVERSATION_ID, v)]
    | none => [])
  extra

/-- Embedding of `_convert_genai_to_openinference`.  Returns `none` when the
Python code would raise a `TypeError` computing
`input_tokens + output_tokens` on values that do not support `+`. -/
def convertGenAI (attrs : AttrMap) : Option AttrMap :=
  -- 1. operation_name → span_kind (walrus `if op_name := attrs.get(...)`)
  let opExtra : AttrMap := match getTruthy attrs GENAI_OPERATION_NAME with
    | some op => [(OI_SPAN_KIND, Value.vStr (operationToSpanKind op))]
    | none => []
  -- 2. token counts (`is not None` presence checks)
  let inputTokens := aget attrs GENAI_USAGE_INPUT_TOKENS
  let outputTokens := aget attrs GENAI_USAGE_OUTPUT_TOKENS
  let tokExtra := opExtra
    ++ (match inputTokens with
        | some v => [(OI_LLM_TOKEN_PROMPT, v)]
        | none => [])
    ++ (match outputTokens with
        | some v => [(OI_LLM_TOKEN_COMPLETION, v)]
        | none => [])
  match inputTokens, outputTokens with
  | some a, some b =>
    match Value.add a b with
    | some s => some (convertRest attrs (tokExtra ++ [(OI_LLM_TOKEN_TOTAL, s)]))
    | none => none
  | some _, none => some (convertRest attrs tokExtra)
  | none, some _ => some (convertRest attrs tokExtra)
  | none, none => some (convertRest attrs tokExtra)

/-- The Python dict merge `\x7b**origA, **extra\x7d`: keys of both mappings,
with `extra`'s value winning on a shared key and `origA`'s value kept
otherwise. -/
def mergeAttrs (origA extra : AttrMap) : AttrMap :=
  origA.filter (fun kv => (aget extra kv.1).isNone) ++ extra

/-- A span context (trace id / span id), opaque to the translation layer. -/
structure SpanContext where
  traceId : Nat
  spanId : Nat
deriving DecidableEq

/-- The fields of a finished `ReadableSpan`.  All fields other than
`attributes` are opaque to the translation layer, so they are modelled with
simple representative types. -/
structure SpanData where
  name : String
  context : SpanContext
  kind : Nat
  parent : Option SpanContext
  startTime : Int
  endTime : Int
  status : Nat
  attributes : Option AttrMap
  events : List String
  links : List SpanContext
  resource : List (String × String)
  instrumentationScope : String
  droppedAttributes : Nat
  droppedEvents : Nat
  droppedLinks : Nat
deriving DecidableEq

/-- A span as seen by the exporter: either an original finished span, or a
`_ConvertedSpan` view wrapping an original span together with the extra
OpenInference attributes. -/
inductive Span where
  | orig (d : SpanData)
  | view (original : Span) (extraAttributes : AttrMap)
deriving DecidableEq

/-- The `attributes` accessor.  `_ConvertedSpan.__init__` computes
`orig_attrs = dict(original.attributes) if original.attributes else \x7b\x7d`
(Python truthiness: `None` and the empty dict both give `\x7b\x7d`) and merges
`extra_attributes` over it; the view's `attributes` property returns that
merged dict. -/
def Span.attributes : Span → Option AttrMap
  | .orig d => d.attributes
  | .view s e =>
      some (mergeAttrs
        (match Span.attributes s with
         | some m => if m.isEmpty then [] else m
         | none => []) e)

/-- The `orig_attrs` dict built in `_ConvertedSpan.__init__` from a wrapped
span's `attributes`. -/
def Span.origDict (s : Span) : AttrMap :=
  match Span.attributes s with
  | some m => if m.isEmpty then [] else m
  | none => []

def Span.name : Span → String
  | .orig d => d.name
  | .view s _ => Span.name s

def Span.context : Span → SpanContext
  | .orig d => d.context
  | .view s _ => Span.context s

def Span.kind : Span → Nat
  | .orig d => d.kind
  | .view s _ => Span.kind s

def Span.parent : Span → Option SpanContext
  | .orig d => d.parent
  | .view s _ => Span.parent s

def Span.startTime : Span → Int
  | .orig d => d.startTime
  | .view s _ => Span.startTime s

def Span.endTime : Span → Int
  | .orig d => d.endTime
  | .view s _ => Span.endTime s

def Span.status : Span → Nat
  | .orig d => d.status
  | .view s _ => Span.status s

def Span.events : Span → List String
  | .orig d => d.events
  | .view s _ => Span.events s

def Span.links : Span → List SpanContext
  | .orig d => d.links
  | .view s _ => Span.links s

def Span.resource : Span → List (String × String)
  | .orig d => d.resource
  | .view s _ => Span.resource s

def Span.instrumentationScope : Span → String
  | .orig d => d.instrumentationScope
  | .view s _ => Span.instrumentationScope s

def Span.droppedAttributes : Span → Nat
  | .orig d => d.droppedAttributes
  | .view s _ => Span.droppedAttributes s

def Span.droppedEvents : Span → Nat
  | .orig d => d.droppedEvents
  | .view s _ => Span.droppedEvents s

def Span.droppedLinks : Span → Nat
  | .orig d => d.droppedLinks
  | .view s _ => Span.droppedLinks s

/-- `get_span_context()`: a `ReadableSpan` returns its context; the view
delegates to the original. -/
def Span.getSpanContext : Span → SpanContext
  | .orig d => d.context
  | .view s _ => Span.getSpanContext s

/-- `SpanExportResult` (SUCCESS / FAILURE). -/
inductive SpanExportResult where
  | success
  | failure
deriving DecidableEq

/-- `GenAIToOpenInferenceExporter._convert_span`: a span with falsy
(`None` or empty) attributes passes through unchanged, an empty derived
mapping passes the span through unchanged, otherwise a `_ConvertedSpan`
view is substituted.  `none` models a `TypeError` raised by the
translation. -/
def convertSpan (s : Span) : Option Span :=
  match Span.attributes s with
  | none => some s
  | some m =>
    if m.isEmpty then some s
    else
      match convertGenAI m with
      | some extra => some (if extra.isEmpty then s else Span.view s extra)
      | none => none

/-- The list comprehension `[self._convert_span(span) for span in spans]`:
spans are converted left to right and the first raised error propagates. -/
def convertBatch : List Span → Option (List Span)
  | [] => some []
  | s :: rest =>
    match convertSpan s with
    | some c =>
      match convertBatch rest with
      | some cs => some (c :: cs)
      | none => none
    | none => none

/-- `GenAIToOpenInferenceExporter.export`: convert the batch, forward it in
one call to the wrapped sink, and return the sink's result (the per-span
logging loop is a side effect that does not touch the result).  `none`
models an exception escaping `export`. -/
def exportTranslating (wrapped : List Span → SpanExportResult)
    (spans : List Span) : Option SpanExportResult :=
  match convertBatch spans with
  | some converted => some (wrapped converted)
  | none => none

/-- An exporter as configured by the setup layer: either the OTLP network
sink (endpoint plus transport headers) or the translating wrapper. -/
inductive Exporter where
  | otlp (endpoint : String) (headers : List (String × String))
  | genAIToOpenInference (wrapped : Exporter)
deriving DecidableEq

/-- The delivery policy actually constructed: `SimpleSpanProcessor`
(immediate, per-span) or `BatchSpanProcessor` (buffered). -/
inductive ProcessorImpl where
  | simpleSpanProcessor (exporter : Exporter)
  | batchSpanProcessor (exporter : Exporter)
deriving DecidableEq

/-- `GenAIToOpenInferenceProcessor.__init__`: wrap the sink in the
translating exporter, then build a batch or simple processor around it
according to the `batch` flag (whose Python default is `False`). -/
def genAIToOpenInferenceProcessor (exporter : Exporter) (batch : Bool) :
    ProcessorImpl :=
  let convertingExporter := Exporter.genAIToOpenInference exporter
  if batch then ProcessorImpl.batchSpanProcessor convertingExporter
  else ProcessorImpl.simpleSpanProcessor convertingExporter

/-- `project_name or "agentscope"`: Python `or` falls through on falsy
values, so both `None` and the empty string give the default. -/
def projectLabel : Option String → String
  | some s => if s = "" then "agentscope" else s
  | none => "agentscope"

/-- The provider state built by `setup_phoenix_tracing`: the resource labels
and the processors registered on the fresh `TracerProvider`. -/
structure TracerProviderModel where
  resource : List (String × String)
  processors : List ProcessorImpl
deriving DecidableEq

/-- Embedding of `setup_phoenix_tracing`: fresh provider with
`service.name` set to the project label, an OTLP sink with the
`phoenix-project-name` header, wrapped by
`GenAIToOpenInferenceProcessor(exporter)` (no `batch` argument, so the
Python default `batch=False` applies). -/
def setup_phoenix_tracing (endpoint : String) (projectName : Option String) :
    TracerProviderModel :=
  let project := projectLabel projectName
  let resource := [("service.name", project)]
  let exporter := Exporter.otlp endpoint [("phoenix-project-name", project)]
  let processor := genAIToOpenInferenceProcessor exporter false
  ⟨resource, [processor]⟩

/-! ## Helper lemmas -/

/-- Left-biased choice on optional lookup results. -/
def oalt : Option Value → Option Value → Option Value
  | some v, _ => some v
  | none, o => o

@[simp] theorem oalt_some (v : Value) (o : Option Value) :
    oalt (some v) o = some v := rfl

@[simp] theorem oalt_none (o : Option Value) : oalt none o = o := rfl

@[simp] theorem oalt_none_right (o : Option Value) : oalt o none = o := by
  cases o <;> rfl

theorem aget_append (a b : AttrMap) (k : String) :
    aget (a ++ b) k = oalt (aget a k) (aget b k) := by
  induction a with
  | nil => simp [aget]
  | cons kv rest ih =>
    obtain ⟨k1, v1⟩ := kv
    by_cases h : k = k1 <;> simp [aget, h, ih]

theorem aget_filter_of_some (o e : AttrMap) (k : String)
    (he : aget e k ≠ none) :
    aget (o.filter (fun kv => (aget e kv.1).isNone)) k = none := by
  induction o with
  | nil => simp [aget]
  | cons kv rest ih =>
    obtain ⟨k1, v1⟩ := kv
    rw [List.filter_cons]
    by_cases hk : k = k1
    · subst hk
      have : (aget e k).isNone = false := by
        cases h2 : aget e k
        · exact absurd h2 he
        · rfl
      simp [this, ih]
    · by_cases h1 : (aget e k1).isNone
      · simp only [h1, if_pos]
        simpa [aget, hk] using ih
      · simp [h1, ih]

theorem aget_filter_of_none (o e : AttrMap) (k : String)
    (he : aget e k = none) :
    aget (o.filter (fun kv => (aget e kv.1).isNone)) k = aget o k := by
  induction o with
  | nil => simp
  | cons kv rest ih =>
    obtain ⟨k1, v1⟩ := kv
    rw [List.filter_cons]
    by_cases hk : k = k1
    · subst hk
      simp [he, aget, ih]
    · by_cases h1 : (aget e k1).isNone
      · simp only [h1, if_pos]
        simpa [aget, hk] using ih
      · simp [h1, aget, hk, ih]

theorem aget_mergeAttrs (o e : AttrMap) (k : String) :
    aget (mergeAttrs o e) k = oalt (aget e k) (aget o k) := by
  unfold mergeAttrs
  rw [aget_append]
  cases he : aget e k
  · rw [aget_filter_of_none o e k he]
    cases aget o k <;> simp
  · rw [aget_filter_of_some o e k (by simp [he])]
    simp

theorem aget_convertRest_of_ne (attrs extra : AttrMap) (k : String)
    (h1 : ¬ k = OI_INPUT_VALUE) (h2 : ¬ k = OI_INPUT_MIME_TYPE)
    (h3 : ¬ k = OI_OUTPUT_VALUE) (h4 : ¬ k = OI_OUTPUT_MIME_TYPE)
    (h5 : ¬ k = OI_METADATA_MODEL) (h6 : ¬ k = OI_METADATA_PROVIDER)
    (h7 : ¬ k = OI_METADATA_AGENT_NAME) (h8 : ¬ k = OI_METADATA_TOOL_NAME)
    (h9 : ¬ k = OI_METADATA_CONVERSATION_ID) :
    aget (convertRest attrs extra) k = aget extra k := by
  unfold convertRest
  repeat' split
  all_goals
    simp_all [aget_append, aget]

theorem aget_convertRest_inputValue (attrs extra : AttrMap)
    (h : aget extra OI_INPUT_VALUE = none) :
    aget (convertRest attrs extra) OI_INPUT_VALUE =
      getTruthy attrs AGENTSCOPE_FUNCTION_INPUT := by
  unfold convertRest
  repeat' split
  all_goals simp_all [aget_append, aget]

theorem convert_aget_total (attrs extra : AttrMap)
    (h : convertGenAI attrs = some extra) :
    aget extra OI_LLM_TOKEN_TOTAL =
      match aget attrs GENAI_USAGE_INPUT_TOKENS,
            aget attrs GENAI_USAGE_OUTPUT_TOKENS with
      | some a, some b => Value.add a b
      | _, _ => none := by
  unfold convertGenAI at h
  simp only [] at h
  repeat' split at h
  all_goals first
    | (injection h with h; subst h)
    | simp at h
  all_goals rw [aget_convertRest_of_ne attrs _ OI_LLM_TOKEN_TOTAL
    (by decide) (by decide) (by decide) (by decide) (by decide)
    (by decide) (by decide) (by decide) (by decide)]
  all_goals simp_all [aget_append, aget]

theorem aget_convertRest_inputMime (attrs extra : AttrMap)
    (h : aget extra OI_INPUT_MIME_TYPE = none) :
    aget (convertRest attrs extra) OI_INPUT_MIME_TYPE =
      match getTruthy attrs AGENTSCOPE_FUNCTION_INPUT with
      | some _ => some (Value.vStr "application/json")
      | none => none := by
  unfold convertRest
  repeat' split
  all_goals simp_all [aget_append, aget]

theorem aget_convertRest_outputValue (attrs extra : AttrMap)
    (h : aget extra OI_OUTPUT_VALUE = none) :
    aget (convertRest attrs extra) OI_OUTPUT_VALUE =
      getTruthy attrs AGENTSCOPE_FUNCTION_OUTPUT := by
  unfold convertRest
  repeat' split
  all_goals simp_all [aget_append, aget]

theorem aget_convertRest_outputMime (attrs extra : AttrMap)
    (h : aget extra OI_OUTPUT_MIME_TYPE = none) :
    aget (convertRest attrs extra) OI_OUTPUT_MIME_TYPE =
      match getTruthy attrs AGENTSCOPE_FUNCTION_OUTPUT with
      | some _ => some (Value.vStr "application/json")
      | none => none := by
  unfold convertRest
  repeat' split
  all_goals simp_all [aget_append, aget]

theorem aget_convertRest_model (attrs extra : AttrMap)
    (h : aget extra OI_METADATA_MODEL = none) :
    aget (convertRest attrs extra) OI_METADATA_MODEL =
      getTruthy attrs GENAI_REQUEST_MODEL := by
  unfold convertRest
  repeat' split
  all_goals simp_all [aget_append, aget]

theorem aget_convertRest_provider (attrs extra : AttrMap)
    (h : aget extra OI_METADATA_PROVIDER = none) :
    aget (convertRest attrs extra) OI_METADATA_PROVIDER =
      getTruthy attrs GENAI_PROVIDER_NAME := by
  unfold convertRest
  repeat' split
  all_goals simp_all [aget_append, aget]

theorem aget_convertRest_agentName (attrs extra : AttrMap)
    (h : aget extra OI_METADATA_AGENT_NAME = none) :
    aget (convertRest attrs extra) OI_METADATA_AGENT_NAME =
      getTruthy attrs GENAI_AGENT_NAME := by
  unfold convertRest
  repeat' split
  all_goals simp_all [aget_append, aget]

theorem aget_convertRest_toolName (attrs extra : AttrMap)
    (h : aget extra OI_METADATA_TOOL_NAME = none) :
    aget (convertRest attrs extra) OI_METADATA_TOOL_NAME =
      getTruthy attrs GENAI_TOOL_NAME := by
  unfold convertRest
  repeat' split
  all_goals simp_all [aget_append, aget]

theorem aget_convertRest_conversationId (attrs extra : AttrMap)
    (h : aget extra OI_METADATA_CONVERSATION_ID = none) :
    aget (convertRest attrs extra) OI_METADATA_CONVERSATION_ID =
      getTruthy attrs GENAI_CONVERSATION_ID := by
  unfold convertRest
  repeat' split
  all_goals simp_all [aget_append, aget]

theorem convert_aget_spanKind (attrs extra : AttrMap)
    (h : convertGenAI attrs = some extra) :
    aget extra OI_SPAN_KIND =
      match getTruthy attrs GENAI_OPERATION_NAME with
      | some v => some (Value.vStr (operationToSpanKind v))
      | none => none := by
  unfold convertGenAI at h
  simp only [] at h
  repeat' split at h
  all_goals first
    | (injection h with h; subst h)
    | simp at h
  all_goals rw [aget_convertRest_of_ne attrs _ OI_SPAN_KIND
    (by decide) (by decide) (by decide) (by decide) (by decide)
    (by decide) (by decide) (by decide) (by decide)]
  all_goals simp_all [aget_append, aget]

theorem convert_aget_prompt (attrs extra : AttrMap)
    (h : convertGenAI attrs = some extra) :
    aget extra OI_LLM_TOKEN_PROMPT = aget attrs GENAI_USAGE_INPUT_TOKENS := by
  unfold convertGenAI at h
  simp only [] at h
  repeat' split at h
  all_goals first
    | (injection h with h; subst h)
    | simp at h
  all_goals rw [aget_convertRest_of_ne attrs _ OI_LLM_TOKEN_PROMPT
    (by decide) (by decide) (by decide) (by decide) (by decide)
    (by decide) (by decide) (by decide) (by decide)]
  all_goals simp_all [aget_append, aget]

theorem convert_aget_completion (attrs extra : AttrMap)
    (h : convertGenAI attrs = some extra) :
    aget extra OI_LLM_TOKEN_COMPLETION =
      aget attrs GENAI_USAGE_OUTPUT_TOKENS := by
  unfold convertGenAI at h
  simp only [] at h
  repeat' split at h
  all_goals first
    | (injection h with h; subst h)
    | simp at h
  all_goals rw [aget_convertRest_of_ne attrs _ OI_LLM_TOKEN_COMPLETION
    (by decide) (by decide) (by decide) (by decide) (by decide)
    (by decide) (by decide) (by decide) (by decide)]
  all_goals simp_all [aget_append, aget]

theorem convert_aget_inputValue (attrs extra : AttrMap)
    (h : convertGenAI attrs = some extra) :
    aget extra OI_INPUT_VALUE = getTruthy attrs AGENTSCOPE_FUNCTION_INPUT := by
  unfold convertGenAI at h
  simp only [] at h
  repeat' split at h
  all_goals first
    | (injection h with h; subst h)
    | simp at h
  all_goals rw [aget_convertRest_inputValue attrs _ (by simp [aget_append, aget])]

theorem convert_aget_inputMime (attrs extra : AttrMap)
    (h : convertGenAI attrs = some extra) :
    aget extra OI_INPUT_MIME_TYPE =
      match getTruthy attrs AGENTSCOPE_FUNCTION_INPUT with
      | some _ => some (Value.vStr "application/json")
      | none => none := by
  unfold convertGenAI at h
  simp only [] at h
  repeat' split at h
  all_goals first
    | (injection h with h; subst h)
    | simp at h
  all_goals rw [aget_convertRest_inputMime attrs _ (by simp [aget_append, aget])]

theorem convert_aget_outputValue (attrs extra : AttrMap)
    (h : convertGenAI attrs = some extra) :
    aget extra OI_OUTPUT_VALUE = getTruthy attrs AGENTSCOPE_FUNCTION_OUTPUT := by
  unfold convertGenAI at h
  simp only [] at h
  repeat' split at h
  all_goals first
    | (injection h with h; subst h)
    | simp at h
  all_goals rw [aget_convertRest_outputValue attrs _ (by simp [aget_append, aget])]

theorem convert_aget_outputMime (attrs extra : AttrMap)
    (h : convertGenAI attrs = some extra) :
    aget extra OI_OUTPUT_MIME_TYPE =
      match getTruthy attrs AGENTSCOPE_FUNCTION_OUTPUT with
      | some _ => some (Value.vStr "application/json")
      | none => none := by
  unfold convertGenAI at h
  simp only [] at h
  repeat' split at h
  all_goals first
    | (injection h with h; subst h)
    | simp at h
  all_goals rw [aget_convertRest_outputMime attrs _ (by simp [aget_append, aget])]

theorem convert_aget_model (attrs extra : AttrMap)
    (h : convertGenAI attrs = some extra) :
    aget extra OI_METADATA_MODEL = getTruthy attrs GENAI_REQUEST_MODEL := by
  unfold convertGenAI at h
  simp only [] at h
  repeat' split at h
  all_goals first
    | (injection h with h; subst h)
    | simp at h
  all_goals rw [aget_convertRest_model attrs _ (by simp [aget_append, aget])]

theorem convert_aget_provider (attrs extra : AttrMap)
    (h : convertGenAI attrs = some extra) :
    aget extra OI_METADATA_PROVIDER = getTruthy attrs GENAI_PROVIDER_NAME := by
  unfold convertGenAI at h
  simp only [] at h
  repeat' split at h
  all_goals first
    | (injection h with h; subst h)
    | simp at h
  all_goals rw [aget_convertRest_provider attrs _ (by simp [aget_append, aget])]

theorem convert_aget_agentName (attrs extra : AttrMap)
    (h : convertGenAI attrs = some extra) :
    aget extra OI_METADATA_AGENT_NAME = getTruthy attrs GENAI_AGENT_NAME := by
  unfold convertGenAI at h
  simp only [] at h
  repeat' split at h
  all_goals first
    | (injection h with h; subst h)
    | simp at h
  all_goals rw [aget_convertRest_agentName attrs _ (by simp [aget_append, aget])]

theorem convert_aget_toolName (attrs extra : AttrMap)
    (h : convertGenAI attrs = some extra) :
    aget extra OI_METADATA_TOOL_NAME = getTruthy attrs GENAI_TOOL_NAME := by
  unfold convertGenAI at h
  simp only [] at h
  repeat' split at h
  all_goals first
    | (injection h with h; subst h)
    | simp at h
  all_goals rw [aget_convertRest_toolName attrs _ (by simp [aget_append, aget])]

theorem convert_aget_conversationId (attrs extra : AttrMap)
    (h : convertGenAI attrs = some extra) :
    aget extra OI_METADATA_CONVERSATION_ID =
      getTruthy attrs GENAI_CONVERSATION_ID := by
  unfold convertGenAI at h
  simp only [] at h
  repeat' split at h
  all_goals first
    | (injection h with h; subst h)
    | simp at h
  all_goals rw [aget_convertRest_conversationId attrs _ (by simp [aget_append, aget])]

theorem convert_aget_not_target (attrs extra : AttrMap) (k : String)
    (h : convertGenAI attrs = some extra)
    (n1 : ¬ k = OI_SPAN_KIND) (n2 : ¬ k = OI_LLM_TOKEN_PROMPT)
    (n3 : ¬ k = OI_LLM_TOKEN_COMPLETION) (n4 : ¬ k = OI_LLM_TOKEN_TOTAL)
    (n5 : ¬ k = OI_INPUT_VALUE) (n6 : ¬ k = OI_INPUT_MIME_TYPE)
    (n7 : ¬ k = OI_OUTPUT_VALUE) (n8 : ¬ k = OI_OUTPUT_MIME_TYPE)
    (n9 : ¬ k = OI_METADATA_MODEL) (n10 : ¬ k = OI_METADATA_PROVIDER)
    (n11 : ¬ k = OI_METADATA_AGENT_NAME) (n12 : ¬ k = OI_METADATA_TOOL_NAME)
    (n13 : ¬ k = OI_METADATA_CONVERSATION_ID) :
    aget extra k = none := by
  unfold convertGenAI at h
  simp only [] at h
  repeat' split at h
  all_goals first
    | (injection h with h; subst h)
    | simp at h
  all_goals rw [aget_convertRest_of_ne attrs _ k n5 n6 n7 n8 n9 n10 n11 n12 n13]
  all_goals simp_all [aget_append, aget]

theorem convert_congr (a b : AttrMap)
    (h1 : aget a GENAI_OPERATION_NAME = aget b GENAI_OPERATION_NAME)
    (h2 : aget a GENAI_USAGE_INPUT_TOKENS = aget b GENAI_USAGE_INPUT_TOKENS)
    (h3 : aget a GENAI_USAGE_OUTPUT_TOKENS = aget b GENAI_USAGE_OUTPUT_TOKENS)
    (h4 : aget a AGENTSCOPE_FUNCTION_INPUT = aget b AGENTSCOPE_FUNCTION_INPUT)
    (h5 : aget a AGENTSCOPE_FUNCTION_OUTPUT = aget b AGENTSCOPE_FUNCTION_OUTPUT)
    (h6 : aget a GENAI_REQUEST_MODEL = aget b GENAI_REQUEST_MODEL)
    (h7 : aget a GENAI_PROVIDER_NAME = aget b GENAI_PROVIDER_NAME)
    (h8 : aget a GENAI_AGENT_NAME = aget b GENAI_AGENT_NAME)
    (h9 : aget a GENAI_TOOL_NAME = aget b GENAI_TOOL_NAME)
    (h10 : aget a GENAI_CONVERSATION_ID = aget b GENAI_CONVERSATION_ID) :
    convertGenAI a = convertGenAI b := by
  unfold convertGenAI convertRest getTruthy
  rw [h1, h2, h3, h4, h5, h6, h7, h8, h9, h10]

theorem convertSpan_shape (s t : Span) (h : convertSpan s = some t) :
    t = s ∨ ∃ extra, t = Span.view s extra := by
  unfold convertSpan at h
  split at h
  · exact Or.inl (Option.some.inj h).symm
  · split at h
    · exact Or.inl (Option.some.inj h).symm
    · split at h
      · rename_i extra heq
        have ht := (Option.some.inj h).symm
        by_cases he : extra.isEmpty
        · rw [if_pos he] at ht
          exact Or.inl ht
        · rw [if_neg he] at ht
          exact Or.inr ⟨extra, ht⟩
      · simp at h

theorem convertBatch_spec (spans converted : List Span)
    (h : convertBatch spans = some converted) :
    converted.length = spans.length ∧
    ∀ (i : Nat) (h1 : i < spans.length) (h2 : i < converted.length),
      convertSpan (spans.get ⟨i, h1⟩) = some (converted.get ⟨i, h2⟩) := by
  induction spans generalizing converted with
  | nil =>
    unfold convertBatch at h
    injection h with h
    subst h
    refine ⟨rfl, ?_⟩
    intro i h1 h2
    exact absurd h1 (by simp)
  | cons s rest ih =>
    unfold convertBatch at h
    split at h
    · rename_i c heq
      split at h
      · rename_i cs heq2
        injection h with h
        subst h
        obtain ⟨hl, hp⟩ := ih cs heq2
        refine ⟨by simp [hl], ?_⟩
        intro i h1 h2
        cases i with
        | zero => exact heq
        | succ j =>
          exact hp j (Nat.lt_of_succ_lt_succ h1) (Nat.lt_of_succ_lt_succ h2)
      · simp at h
    · simp at h

/-- A sink that accepts every batch. -/
def successSink : List Span → SpanExportResult :=
  fun _ => SpanExportResult.success

/-- A sink that rejects every batch. -/
def failureSink : List Span → SpanExportResult :=
  fun _ => SpanExportResult.failure

/-- A finished span record with the given attributes and fixed values for the
fields the translation layer treats opaquely. -/
def mkSpanData (attrs : Option AttrMap) : SpanData :=
  ⟨"span", ⟨1, 2⟩, 0, none, 0, 1, 0, attrs, [], [], [], "agentscope", 0, 0, 0⟩

/-! ## Claims -/

/-- C1 counterexample: `setup_phoenix_tracing` constructs the *simple*
(immediate) delivery policy around the translating exporter, not the
buffered (batch) one: the `batch` parameter of
`GenAIToOpenInferenceProcessor` defaults to `False` and the setup call
does not override it. -/
theorem C1_phoenix_buffered_counterexample :
    (setup_phoenix_tracing "http://localhost:6006/v1/traces" none).processors =
      [ProcessorImpl.simpleSpanProcessor (Exporter.genAIToOpenInference
        (Exporter.otlp "http://localhost:6006/v1/traces"
          [("phoenix-project-name", "agentscope")]))] ∧
    ¬ (setup_phoenix_tracing "http://localhost:6006/v1/traces" none).processors =
      [ProcessorImpl.batchSpanProcessor (Exporter.genAIToOpenInference
        (Exporter.otlp "http://localhost:6006/v1/traces"
          [("phoenix-project-name", "agentscope")]))] := by
  exact ⟨rfl, by decide⟩

/-- C1 (amended): for every endpoint and project label,
`setup_phoenix_tracing` wraps the network sink (carrying the project label
as the `phoenix-project-name` header) in the translating exporter and
installs it under the *immediate* (`SimpleSpanProcessor`) delivery policy,
on a fresh provider whose resource carries the project label. -/
theorem C1_phoenix_immediate_mode :
    ∀ (endpoint : String) (projectName : Option String),
    (setup_phoenix_tracing endpoint projectName).processors =
      [ProcessorImpl.simpleSpanProcessor (Exporter.genAIToOpenInference
        (Exporter.otlp endpoint
          [("phoenix-project-name", projectLabel projectName)]))] ∧
    (setup_phoenix_tracing endpoint projectName).resource =
      [("service.name", projectLabel projectName)] := by
  intro endpoint projectName
  exact ⟨rfl, rfl⟩

/-- C2: for every source attribute mapping on which the translator produces
a derived mapping, the combined token-total key is present iff both the
input-token and output-token keys are present; for integer counts its value
is exactly the arithmetic sum; if either is absent no total key appears. -/
theorem C2_token_total_sum :
    ∀ (attrs extra : AttrMap), convertGenAI attrs = some extra →
    ((aget attrs GENAI_USAGE_INPUT_TOKENS = none ∨
      aget attrs GENAI_USAGE_OUTPUT_TOKENS = none) →
      aget extra OI_LLM_TOKEN_TOTAL = none) ∧
    (∀ a b : Int,
      aget attrs GENAI_USAGE_INPUT_TOKENS = some (Value.vInt a) →
      aget attrs GENAI_USAGE_OUTPUT_TOKENS = some (Value.vInt b) →
      aget extra OI_LLM_TOKEN_TOTAL = some (Value.vInt (a + b))) ∧
    (∀ v, aget extra OI_LLM_TOKEN_TOTAL = some v →
      ∃ a b, aget attrs GENAI_USAGE_INPUT_TOKENS = some a ∧
        aget attrs GENAI_USAGE_OUTPUT_TOKENS = some b ∧
        Value.add a b = some v) := by
  intro attrs extra h
  have hT := convert_aget_total attrs extra h
  refine ⟨?_, ?_, ?_⟩
  · intro hab
    rw [hT]
    rcases hab with h1 | h1
    · rw [h1]
    · rw [h1]
      cases aget attrs GENAI_USAGE_INPUT_TOKENS <;> rfl
  · intro a b h1 h2
    rw [hT, h1, h2]
    rfl
  · intro v hv
    rw [hT] at hv
    cases h1 : aget attrs GENAI_USAGE_INPUT_TOKENS with
    | none =>
      rw [h1] at hv
      cases h2 : aget attrs GENAI_USAGE_OUTPUT_TOKENS <;>
        rw [h2] at hv <;> simp at hv
    | some a =>
      rw [h1] at hv
      cases h2 : aget attrs GENAI_USAGE_OUTPUT_TOKENS with
      | none =>
        rw [h2] at hv
        simp at hv
      | some b =>
        rw [h2] at hv
        exact ⟨a, b, rfl, rfl, hv⟩

/-- C2 witness: with 3 input and 4 output tokens the derived mapping holds
exactly the total 7 under the total key. -/
theorem C2_token_total_sum_witness :
    convertGenAI [(GENAI_USAGE_INPUT_TOKENS, Value.vInt 3),
                  (GENAI_USAGE_OUTPUT_TOKENS, Value.vInt 4)] =
      some [(OI_LLM_TOKEN_PROMPT, Value.vInt 3),
            (OI_LLM_TOKEN_COMPLETION, Value.vInt 4),
            (OI_LLM_TOKEN_TOTAL, Value.vInt 7)] ∧
    aget [(OI_LLM_TOKEN_PROMPT, Value.vInt 3),
          (OI_LLM_TOKEN_COMPLETION, Value.vInt 4),
          (OI_LLM_TOKEN_TOTAL, Value.vInt 7)] OI_LLM_TOKEN_TOTAL =
      some (Value.vInt 7) :=
  ⟨rfl,
   (C2_token_total_sum
      [(GENAI_USAGE_INPUT_TOKENS, Value.vInt 3),
       (GENAI_USAGE_OUTPUT_TOKENS, Value.vInt 4)]
      [(OI_LLM_TOKEN_PROMPT, Value.vInt 3),
       (OI_LLM_TOKEN_COMPLETION, Value.vInt 4),
       (OI_LLM_TOKEN_TOTAL, Value.vInt 7)] rfl).2.1 3 4 rfl rfl⟩

/-- C3 counterexample: the operation-name key is present with the value `""`,
which is not in the lookup table, yet the derived mapping is empty — no
span-kind key (and in particular not `"CHAIN"`), because the walrus
`if op_name := attrs.get(...)` treats the falsy value as absent. -/
theorem C3_spanKind_counterexample :
    aget [(GENAI_OPERATION_NAME, Value.vStr "")] GENAI_OPERATION_NAME =
      some (Value.vStr "") ∧
    lookupStr OPERATION_TO_SPAN_KIND "" = none ∧
    convertGenAI [(GENAI_OPERATION_NAME, Value.vStr "")] = some [] ∧
    ¬ aget ([] : AttrMap) OI_SPAN_KIND = some (Value.vStr "CHAIN") := by
  refine ⟨rfl, rfl, rfl, ?_⟩
  intro hc
  exact Option.noConfusion hc

/-- C3 (amended): operation-name absent ⇒ no span-kind key;
operation-name `"chat"` ⇒ span-kind `"LLM"`; operation-name present with a
*truthy* value not in the lookup table ⇒ span-kind `"CHAIN"`; operation-name
present with a *falsy* value (empty string, 0, false, empty sequence) ⇒ no
span-kind key. -/
theorem C3_spanKind_amended :
    ∀ (attrs extra : AttrMap), convertGenAI attrs = some extra →
    (aget attrs GENAI_OPERATION_NAME = none →
      aget extra OI_SPAN_KIND = none) ∧
    (aget attrs GENAI_OPERATION_NAME = some (Value.vStr "chat") →
      aget extra OI_SPAN_KIND = some (Value.vStr "LLM")) ∧
    (∀ v, aget attrs GENAI_OPERATION_NAME = some v → truthy v = true →
      (∀ s, v = Value.vStr s → lookupStr OPERATION_TO_SPAN_KIND s = none) →
      aget extra OI_SPAN_KIND = some (Value.vStr "CHAIN")) ∧
    (∀ v, aget attrs GENAI_OPERATION_NAME = some v → truthy v = false →
      aget extra OI_SPAN_KIND = none) := by
  intro attrs extra h
  have hS := convert_aget_spanKind attrs extra h
  refine ⟨?_, ?_, ?_, ?_⟩
  · intro h1
    rw [hS]
    simp [getTruthy, h1]
  · intro h1
    rw [hS]
    simp [getTruthy, h1, truthy, operationToSpanKind, lookupStr,
      OPERATION_TO_SPAN_KIND]
  · intro v h1 h2 h3
    rw [hS]
    simp only [getTruthy, h1, h2, if_pos]
    cases v with
    | vStr s => simp [operationToSpanKind, h3 s rfl]
    | vInt n => simp [operationToSpanKind]
    | vBool b => simp [operationToSpanKind]
    | vStrList l => simp [operationToSpanKind]
  · intro v h1 h2
    rw [hS]
    simp [getTruthy, h1, h2]

/-- C3 witness (for the amended claim): a truthy unrecognized operation name
yields span-kind `"CHAIN"`. -/
theorem C3_spanKind_amended_witness :
    convertGenAI [(GENAI_OPERATION_NAME, Value.vStr "mystery")] =
      some [(OI_SPAN_KIND, Value.vStr "CHAIN")] ∧
    aget [(OI_SPAN_KIND, Value.vStr "CHAIN")] OI_SPAN_KIND =
      some (Value.vStr "CHAIN") :=
  ⟨rfl,
   (C3_spanKind_amended [(GENAI_OPERATION_NAME, Value.vStr "mystery")]
      [(OI_SPAN_KIND, Value.vStr "CHAIN")] rfl).2.2.1
     (Value.vStr "mystery") rfl rfl
     (fun s hs => by injection hs with hs; subst hs; rfl)⟩

/-- C4 counterexample: on a batch whose span carries token counts that do not
support `+` (a string input count and an integer output count), the
translation itself raises a `TypeError`, so `export` produces no result at
all — neither the sink's success nor a failure — refuting "translation
never independently fails" for every batch. -/
theorem C4_export_counterexample :
    exportTranslating successSink
      [Span.orig (mkSpanData (some [(GENAI_USAGE_INPUT_TOKENS, Value.vStr "a"),
        (GENAI_USAGE_OUTPUT_TOKENS, Value.vInt 1)]))] = none ∧
    ¬ exportTranslating successSink
      [Span.orig (mkSpanData (some [(GENAI_USAGE_INPUT_TOKENS, Value.vStr "a"),
        (GENAI_USAGE_OUTPUT_TOKENS, Value.vInt 1)]))] =
      some SpanExportResult.success ∧
    ¬ exportTranslating successSink
      [Span.orig (mkSpanData (some [(GENAI_USAGE_INPUT_TOKENS, Value.vStr "a"),
        (GENAI_USAGE_OUTPUT_TOKENS, Value.vInt 1)]))] =
      some SpanExportResult.failure := by
  refine ⟨rfl, ?_, ?_⟩ <;> intro hc <;> exact Option.noConfusion (rfl.symm.trans hc)

/-- C4 (amended): for every batch on which the per-span translation raises no
error, `export` returns exactly the wrapped sink's result for the forwarded
batch, unmodified — success and failure both pass through untouched. -/
theorem C4_export_result_amended :
    ∀ (sink : List Span → SpanExportResult) (spans converted : List Span),
    convertBatch spans = some converted →
    exportTranslating sink spans = some (sink converted) := by
  intro sink spans converted h
  unfold exportTranslating
  rw [h]

/-- C4 witness: a failing sink's failure result is returned unchanged. -/
theorem C4_export_result_amended_witness :
    exportTranslating failureSink [Span.orig (mkSpanData none)] =
      some SpanExportResult.failure :=
  C4_export_result_amended failureSink [Span.orig (mkSpanData none)]
    [Span.orig (mkSpanData none)] rfl

/-- C5: for every batch on which translation succeeds, the batch forwarded to
the wrapped sink (whose result is returned) has exactly the input length,
and the i-th forwarded span is the i-th input span either unchanged or
wrapped in a `_ConvertedSpan` view of that same span. -/
theorem C5_order_preserved :
    ∀ (sink : List Span → SpanExportResult) (spans converted : List Span),
    convertBatch spans = some converted →
    exportTranslating sink spans = some (sink converted) ∧
    converted.length = spans.length ∧
    (∀ (i : Nat) (h1 : i < spans.length) (h2 : i < converted.length),
      converted.get ⟨i, h2⟩ = spans.get ⟨i, h1⟩ ∨
      ∃ extra, converted.get ⟨i, h2⟩ = Span.view (spans.get ⟨i, h1⟩) extra) := by
  intro sink spans converted h
  obtain ⟨hl, hp⟩ := convertBatch_spec spans converted h
  refine ⟨?_, hl, ?_⟩
  · unfold exportTranslating
    rw [h]
  · intro i h1 h2
    exact convertSpan_shape _ _ (hp i h1 h2)

/-- C5 witness: a one-span batch needing translation is forwarded with the
same length and the sink's success is returned. -/
theorem C5_order_preserved_witness :
    exportTranslating successSink
      [Span.orig (mkSpanData (some [(GENAI_OPERATION_NAME, Value.vStr "chat")]))] =
      some SpanExportResult.success ∧
    ([Span.view
        (Span.orig (mkSpanData (some [(GENAI_OPERATION_NAME, Value.vStr "chat")])))
        [(OI_SPAN_KIND, Value.vStr "LLM")]] : List Span).length =
      ([Span.orig (mkSpanData (some [(GENAI_OPERATION_NAME, Value.vStr "chat")]))] :
        List Span).length :=
  ⟨(C5_order_preserved successSink
      [Span.orig (mkSpanData (some [(GENAI_OPERATION_NAME, Value.vStr "chat")]))]
      [Span.view
        (Span.orig (mkSpanData (some [(GENAI_OPERATION_NAME, Value.vStr "chat")])))
        [(OI_SPAN_KIND, Value.vStr "LLM")]] rfl).1,
   (C5_order_preserved successSink
      [Span.orig (mkSpanData (some [(GENAI_OPERATION_NAME, Value.vStr "chat")]))]
      [Span.view
        (Span.orig (mkSpanData (some [(GENAI_OPERATION_NAME, Value.vStr "chat")])))
        [(OI_SPAN_KIND, Value.vStr "LLM")]] rfl).2.1⟩

/-- C6: a span with no attributes, and a span whose attributes yield an empty
derived mapping, pass through `_convert_span` as the identical span — no
`_ConvertedSpan` view is allocated. -/
theorem C6_passthrough_identity :
    ∀ (s : Span),
    ((Span.attributes s = none ∨ Span.attributes s = some []) →
      convertSpan s = some s) ∧
    (∀ m, Span.attributes s = some m → convertGenAI m = some ([] : AttrMap) →
      convertSpan s = some s) := by
  intro s
  constructor
  · intro h
    rcases h with h | h <;> simp [convertSpan, h]
  · intro m h1 h2
    simp only [convertSpan, h1]
    by_cases hm : m.isEmpty
    · simp [hm]
    · simp [hm, h2]

/-- C6 witness: the attribute-free span passes through identically. -/
theorem C6_passthrough_identity_witness :
    convertSpan (Span.orig (mkSpanData none)) =
      some (Span.orig (mkSpanData none)) :=
  (C6_passthrough_identity (Span.orig (mkSpanData none))).1 (Or.inl rfl)

/-- C7: the view's attributes are the merge of the original dict with the
derived mapping; every key of the derived mapping wins on collision, every
original key not produced by the translation keeps its original value, and
every key of either mapping is present in the merge. -/
theorem C7_merge_invariant :
    ∀ (s : Span) (extra : AttrMap) (k : String),
    Span.attributes (Span.view s extra) =
      some (mergeAttrs (Span.origDict s) extra) ∧
    (∀ v, aget extra k = some v →
      aget (mergeAttrs (Span.origDict s) extra) k = some v) ∧
    (aget extra k = none →
      aget (mergeAttrs (Span.origDict s) extra) k = aget (Span.origDict s) k) ∧
    (((aget (Span.origDict s) k).isSome = true ∨
      (aget extra k).isSome = true) →
      (aget (mergeAttrs (Span.origDict s) extra) k).isSome = true) := by
  intro s extra k
  refine ⟨rfl, ?_, ?_, ?_⟩
  · intro v hv
    rw [aget_mergeAttrs, hv]
    exact oalt_some v _
  · intro hv
    rw [aget_mergeAttrs, hv]
    exact oalt_none _
  · intro hor
    rw [aget_mergeAttrs]
    cases he : aget extra k with
    | some v => rfl
    | none =>
      rcases hor with h1 | h1
      · simpa using h1
      · rw [he] at h1
        simp at h1

/-- C7 witness: on a shared key the translated value wins; an untranslated
key keeps its original value. -/
theorem C7_merge_invariant_witness :
    aget (mergeAttrs
      (Span.origDict (Span.orig (mkSpanData
        (some [("custom.key", Value.vStr "orig"), ("other.key", Value.vInt 5)]))))
      [("custom.key", Value.vStr "new")]) "custom.key" =
      some (Value.vStr "new") ∧
    aget (mergeAttrs
      (Span.origDict (Span.orig (mkSpanData
        (some [("custom.key", Value.vStr "orig"), ("other.key", Value.vInt 5)]))))
      [("custom.key", Value.vStr "new")]) "other.key" =
      aget (Span.origDict (Span.orig (mkSpanData
        (some [("custom.key", Value.vStr "orig"), ("other.key", Value.vInt 5)]))))
        "other.key" :=
  ⟨(C7_merge_invariant (Span.orig (mkSpanData
      (some [("custom.key", Value.vStr "orig"), ("other.key", Value.vInt 5)])))
      [("custom.key", Value.vStr "new")] "custom.key").2.1
      (Value.vStr "new") rfl,
   (C7_merge_invariant (Span.orig (mkSpanData
      (some [("custom.key", Value.vStr "orig"), ("other.key", Value.vInt 5)])))
      [("custom.key", Value.vStr "new")] "other.key").2.2.1 rfl⟩

/-- C8: every accessor of the `_ConvertedSpan` view other than `attributes`
returns exactly the wrapped span's value (the same object — modelled as
equality of the delegated value). -/
theorem C8_view_delegates :
    ∀ (s : Span) (extra : AttrMap),
    Span.name (Span.view s extra) = Span.name s ∧
    Span.context (Span.view s extra) = Span.context s ∧
    Span.kind (Span.view s extra) = Span.kind s ∧
    Span.parent (Span.view s extra) = Span.parent s ∧
    Span.startTime (Span.view s extra) = Span.startTime s ∧
    Span.endTime (Span.view s extra) = Span.endTime s ∧
    Span.status (Span.view s extra) = Span.status s ∧
    Span.events (Span.view s extra) = Span.events s ∧
    Span.links (Span.view s extra) = Span.links s ∧
    Span.resource (Span.view s extra) = Span.resource s ∧
    Span.instrumentationScope (Span.view s extra) =
      Span.instrumentationScope s ∧
    Span.droppedAttributes (Span.view s extra) = Span.droppedAttributes s ∧
    Span.droppedEvents (Span.view s extra) = Span.droppedEvents s ∧
    Span.droppedLinks (Span.view s extra) = Span.droppedLinks s ∧
    Span.getSpanContext (Span.view s extra) = Span.getSpanContext s := by
  intro s extra
  exact ⟨rfl, rfl, rfl, rfl, rfl, rfl, rfl, rfl, rfl, rfl, rfl, rfl, rfl,
    rfl, rfl⟩

/-- C9: translation is idempotent — re-translating the merged attributes of a
translated view yields exactly the derived mapping of the original, because
no translation output key belongs to the source vocabulary the translator
reads. -/
theorem C9_translation_idempotent :
    ∀ (attrs extra : AttrMap), convertGenAI attrs = some extra →
    convertGenAI (mergeAttrs attrs extra) = some extra := by
  intro attrs extra h
  have e1 : aget extra GENAI_OPERATION_NAME = none :=
    convert_aget_not_target attrs extra GENAI_OPERATION_NAME h
      (by decide) (by decide) (by decide) (by decide) (by decide) (by decide)
      (by decide) (by decide) (by decide) (by decide) (by decide) (by decide)
      (by decide)
  have e2 : aget extra GENAI_USAGE_INPUT_TOKENS = none :=
    convert_aget_not_target attrs extra GENAI_USAGE_INPUT_TOKENS h
      (by decide) (by decide) (by decide) (by decide) (by decide) (by decide)
      (by decide) (by decide) (by decide) (by decide) (by decide) (by decide)
      (by decide)
  have e3 : aget extra GENAI_USAGE_OUTPUT_TOKENS = none :=
    convert_aget_not_target attrs extra GENAI_USAGE_OUTPUT_TOKENS h
      (by decide) (by decide) (by decide) (by decide) (by decide) (by decide)
      (by decide) (by decide) (by decide) (by decide) (by decide) (by decide)
      (by decide)
  have e4 : aget extra AGENTSCOPE_FUNCTION_INPUT = none :=
    convert_aget_not_target attrs extra AGENTSCOPE_FUNCTION_INPUT h
      (by decide) (by decide) (by decide) (by decide) (by decide) (by decide)
      (by decide) (by decide) (by decide) (by decide) (by decide) (by decide)
      (by decide)
  have e5 : aget extra AGENTSCOPE_FUNCTION_OUTPUT = none :=
    convert_aget_not_target attrs extra AGENTSCOPE_FUNCTION_OUTPUT h
      (by decide) (by decide) (by decide) (by decide) (by decide) (by decide)
      (by decide) (by decide) (by decide) (by decide) (by decide) (by decide)
      (by decide)
  have e6 : aget extra GENAI_REQUEST_MODEL = none :=
    convert_aget_not_target attrs extra GENAI_REQUEST_MODEL h
      (by decide) (by decide) (by decide) (by decide) (by decide) (by decide)
      (by decide) (by decide) (by decide) (by decide) (by decide) (by decide)
      (by decide)
  have e7 : aget extra GENAI_PROVIDER_NAME = none :=
    convert_aget_not_target attrs extra GENAI_PROVIDER_NAME h
      (by decide) (by decide) (by decide) (by decide) (by decide) (by decide)
      (by decide) (by decide) (by decide) (by decide) (by decide) (by decide)
      (by decide)
  have e8 : aget extra GENAI_AGENT_NAME = none :=
    convert_aget_not_target attrs extra GENAI_AGENT_NAME h
      (by decide) (by decide) (by decide) (by decide) (by decide) (by decide)
      (by decide) (by decide) (by decide) (by decide) (by decide) (by decide)
      (by decide)
  have e9 : aget extra GENAI_TOOL_NAME = none :=
    convert_aget_not_target attrs extra GENAI_TOOL_NAME h
      (by decide) (by decide) (by decide) (by decide) (by decide) (by decide)
      (by decide) (by decide) (by decide) (by decide) (by decide) (by decide)
      (by decide)
  have e10 : aget extra GENAI_CONVERSATION_ID = none :=
    convert_aget_not_target attrs extra GENAI_CONVERSATION_ID h
      (by decide) (by decide) (by decide) (by decide) (by decide) (by decide)
      (by decide) (by decide) (by decide) (by decide) (by decide) (by decide)
      (by decide)
  have hc := convert_congr (mergeAttrs attrs extra) attrs
    (by rw [aget_mergeAttrs, e1]; exact oalt_none _) (by rw [aget_mergeAttrs, e2]; exact oalt_none _)
    (by rw [aget_mergeAttrs, e3]; exact oalt_none _) (by rw [aget_mergeAttrs, e4]; exact oalt_none _)
    (by rw [aget_mergeAttrs, e5]; exact oalt_none _) (by rw [aget_mergeAttrs, e6]; exact oalt_none _)
    (by rw [aget_mergeAttrs, e7]; exact oalt_none _) (by rw [aget_mergeAttrs, e8]; exact oalt_none _)
    (by rw [aget_mergeAttrs, e9]; exact oalt_none _) (by rw [aget_mergeAttrs, e10]; exact oalt_none _)
  rw [hc, h]

/-- C9 witness: re-translating the merged attributes of the token example
yields the same derived mapping. -/
theorem C9_translation_idempotent_witness :
    convertGenAI (mergeAttrs
      [(GENAI_USAGE_INPUT_TOKENS, Value.vInt 3),
       (GENAI_USAGE_OUTPUT_TOKENS, Value.vInt 4)]
      [(OI_LLM_TOKEN_PROMPT, Value.vInt 3),
       (OI_LLM_TOKEN_COMPLETION, Value.vInt 4),
       (OI_LLM_TOKEN_TOTAL, Value.vInt 7)]) =
      some [(OI_LLM_TOKEN_PROMPT, Value.vInt 3),
            (OI_LLM_TOKEN_COMPLETION, Value.vInt 4),
            (OI_LLM_TOKEN_TOTAL, Value.vInt 7)] :=
  C9_translation_idempotent
    [(GENAI_USAGE_INPUT_TOKENS, Value.vInt 3),
     (GENAI_USAGE_OUTPUT_TOKENS, Value.vInt 4)]
    [(OI_LLM_TOKEN_PROMPT, Value.vInt 3),
     (OI_LLM_TOKEN_COMPLETION, Value.vInt 4),
     (OI_LLM_TOKEN_TOTAL, Value.vInt 7)] rfl

/-- C10: the token-count rules use `is not None` presence (a count of 0 is
still copied and summed into the total), whereas the operation-name,
payload-passthrough, and metadata rules emit nothing when their source key
holds a falsy value. -/
theorem C10_presence_semantics :
    ∀ (attrs extra : AttrMap), convertGenAI attrs = some extra →
    aget extra OI_LLM_TOKEN_PROMPT = aget attrs GENAI_USAGE_INPUT_TOKENS ∧
    aget extra OI_LLM_TOKEN_COMPLETION =
      aget attrs GENAI_USAGE_OUTPUT_TOKENS ∧
    (aget attrs GENAI_USAGE_INPUT_TOKENS = some (Value.vInt 0) →
      aget attrs GENAI_USAGE_OUTPUT_TOKENS = some (Value.vInt 0) →
      aget extra OI_LLM_TOKEN_PROMPT = some (Value.vInt 0) ∧
      aget extra OI_LLM_TOKEN_TOTAL = some (Value.vInt 0)) ∧
    (∀ v, truthy v = false →
      (aget attrs GENAI_OPERATION_NAME = some v →
        aget extra OI_SPAN_KIND = none) ∧
      (aget attrs AGENTSCOPE_FUNCTION_INPUT = some v →
        aget extra OI_INPUT_VALUE = none ∧
        aget extra OI_INPUT_MIME_TYPE = none) ∧
      (aget attrs AGENTSCOPE_FUNCTION_OUTPUT = some v →
        aget extra OI_OUTPUT_VALUE = none ∧
        aget extra OI_OUTPUT_MIME_TYPE = none) ∧
      (aget attrs GENAI_REQUEST_MODEL = some v →
        aget extra OI_METADATA_MODEL = none) ∧
      (aget attrs GENAI_PROVIDER_NAME = some v →
        aget extra OI_METADATA_PROVIDER = none) ∧
      (aget attrs GENAI_AGENT_NAME = some v →
        aget extra OI_METADATA_AGENT_NAME = none) ∧
      (aget attrs GENAI_TOOL_NAME = some v →
        aget extra OI_METADATA_TOOL_NAME = none) ∧
      (aget attrs GENAI_CONVERSATION_ID = some v →
        aget extra OI_METADATA_CONVERSATION_ID = none)) := by
  intro attrs extra h
  refine ⟨convert_aget_prompt attrs extra h,
    convert_aget_completion attrs extra h, ?_, ?_⟩
  · intro h1 h2
    constructor
    · rw [convert_aget_prompt attrs extra h, h1]
    · rw [convert_aget_total attrs extra h, h1, h2]
      try rfl
  · intro v hv
    refine ⟨?_, ?_, ?_, ?_, ?_, ?_, ?_, ?_⟩
    · intro h1
      rw [convert_aget_spanKind attrs extra h]
      simp [getTruthy, h1, hv]
    · intro h1
      constructor
      · rw [convert_aget_inputValue attrs extra h]
        simp [getTruthy, h1, hv]
      · rw [convert_aget_inputMime attrs extra h]
        simp [getTruthy, h1, hv]
    · intro h1
      constructor
      · rw [convert_aget_outputValue attrs extra h]
        simp [getTruthy, h1, hv]
      · rw [convert_aget_outputMime attrs extra h]
        simp [getTruthy, h1, hv]
    · intro h1
      rw [convert_aget_model attrs extra h]
      simp [getTruthy, h1, hv]
    · intro h1
      rw [convert_aget_provider attrs extra h]
      simp [getTruthy, h1, hv]
    · intro h1
      rw [convert_aget_agentName attrs extra h]
      simp [getTruthy, h1, hv]
    · intro h1
      rw [convert_aget_toolName attrs extra h]
      simp [getTruthy, h1, hv]
    · intro h1
      rw [convert_aget_conversationId attrs extra h]
      simp [getTruthy, h1, hv]

/-- C10 witness: zero token counts are still copied and totalled, while a
falsy (empty-string) model name emits no metadata key. -/
theorem C10_presence_semantics_witness :
    convertGenAI [(GENAI_USAGE_INPUT_TOKENS, Value.vInt 0),
                  (GENAI_USAGE_OUTPUT_TOKENS, Value.vInt 0),
                  (GENAI_REQUEST_MODEL, Value.vStr "")] =
      some [(OI_LLM_TOKEN_PROMPT, Value.vInt 0),
            (OI_LLM_TOKEN_COMPLETION, Value.vInt 0),
            (OI_LLM_TOKEN_TOTAL, Value.vInt 0)] ∧
    aget [(OI_LLM_TOKEN_PROMPT, Value.vInt 0),
          (OI_LLM_TOKEN_COMPLETION, Value.vInt 0),
          (OI_LLM_TOKEN_TOTAL, Value.vInt 0)] OI_LLM_TOKEN_TOTAL =
      some (Value.vInt 0) ∧
    aget [(OI_LLM_TOKEN_PROMPT, Value.vInt 0),
          (OI_LLM_TOKEN_COMPLETION, Value.vInt 0),
          (OI_LLM_TOKEN_TOTAL, Value.vInt 0)] OI_METADATA_MODEL = none :=
  ⟨rfl,
   ((C10_presence_semantics
      [(GENAI_USAGE_INPUT_TOKENS, Value.vInt 0),
       (GENAI_USAGE_OUTPUT_TOKENS, Value.vInt 0),
       (GENAI_REQUEST_MODEL, Value.vStr "")]
      [(OI_LLM_TOKEN_PROMPT, Value.vInt 0),
       (OI_LLM_TOKEN_COMPLETION, Value.vInt 0),
       (OI_LLM_TOKEN_TOTAL, Value.vInt 0)] rfl).2.2.1 rfl rfl).2,
   (((C10_presence_semantics
      [(GENAI_USAGE_INPUT_TOKENS, Value.vInt 0),
       (GENAI_USAGE_OUTPUT_TOKENS, Value.vInt 0),
       (GENAI_REQUEST_MODEL, Value.vStr "")]
      [(OI_LLM_TOKEN_PROMPT, Value.vInt 0),
       (OI_LLM_TOKEN_COMPLETION, Value.vInt 0),
       (OI_LLM_TOKEN_TOTAL, Value.vInt 0)] rfl).2.2.2
      (Value.vStr "") rfl).2.2.2.1 rfl)⟩

end AgentScopeTracing
